import Mathlib

/-!
Shallow embedding of the lottery chat-bot plugin
(`src/plugins/lottery/lottery.py` and `src/plugins/lottery/models.py`).

Storage is one JSON document: an object keyed by scene-id string whose
values are arrays of lottery records.  We embed the document as an
association list `DB`.  JSON-decoded records (Python dicts) are embedded
as `RawLottery`; the pydantic model `Lottery` is a separate structure and
`Lottery.model_validate` / `Lottery.model_dump` convert between them,
mirroring `models.py`.

Datetimes are embedded as integers ordered like the datetimes they
denote; the formatted strings stored in records are passed alongside.
`secrets.choice` is embedded as indexing by an arbitrary `Nat` oracle
modulo the list length.  Replies and early `finish` exits are returned as
result values; a Python exception escaping a handler is `Except.error`
with a `PyError` naming the exception class.
-/

/-- Exception classes that the embedded code can raise. -/
inductive PyError where
  | attributeError
  | typeError
  | valueError
deriving Repr, DecidableEq

/-- A JSON-decoded lottery record (a Python dict) as stored in
`lottery.json`.  `participants_limits` and `participants` are `Option`
because those two fields have pydantic defaults and may be absent from an
input record; the remaining fields are present in every record this
program writes (`Lottery.model_dump` emits all fields). -/
structure RawLottery where
  id : String
  creator : String
  scene : String
  start_time : String
  end_time : String
  keyword : String
  participants_limits : Option Int
  participants : Option (List String)
  bot_id : String
  adapter : String
deriving Repr, DecidableEq

/-- The pydantic model `Lottery` of `models.py` after validation:
defaults applied, all fields present. -/
structure Lottery where
  id : String
  creator : String
  scene : String
  start_time : String
  end_time : String
  keyword : String
  participants_limits : Int
  participants : List String
  bot_id : String
  adapter : String
deriving Repr, DecidableEq

/-- Embeds `Lottery.check_model` (models.py lines 16-24), a `mode="before"`
validator receiving the raw dict.  `numbers = values.get("numbers", [])`:
no record of this program carries a `"numbers"` key, so `numbers` is `[]`
and `len(numbers)` is `0`.  `limits = values.get("participants_limits")`
is `None` when the field is absent, and `0 > None` raises `TypeError`;
when present, `0 > limits` raises the `ValueError` only for negative
limits.  The `participants` list is never consulted. -/
def Lottery.check_model (values : RawLottery) : Except PyError RawLottery :=
  match values.participants_limits with
  | none => Except.error PyError.typeError
  | some limits =>
      if 0 > limits then Except.error PyError.valueError
      else Except.ok values

/-- Embeds `Lottery.model_validate`: run the before-validator, then build the
model applying the declared defaults (`participants_limits: int = 1`,
`participants: list = Field(default_factory=list)`). -/
def Lottery.model_validate (values : RawLottery) : Except PyError Lottery :=
  match Lottery.check_model values with
  | Except.error e => Except.error e
  | Except.ok v =>
      Except.ok
        { id := v.id
          creator := v.creator
          scene := v.scene
          start_time := v.start_time
          end_time := v.end_time
          keyword := v.keyword
          participants_limits := v.participants_limits.getD 1
          participants := v.participants.getD []
          bot_id := v.bot_id
          adapter := v.adapter }

/-- Embeds `Lottery.model_dump`: serialise the model back to a dict with every
field present. -/
def Lottery.model_dump (l : Lottery) : RawLottery :=
  { id := l.id
    creator := l.creator
    scene := l.scene
    start_time := l.start_time
    end_time := l.end_time
    keyword := l.keyword
    participants_limits := some l.participants_limits
    participants := some l.participants
    bot_id := l.bot_id
    adapter := l.adapter }

/-- The persisted JSON document: an object keyed by scene id.  A missing
file reads as the empty document. -/
def DB : Type := List (String × List RawLottery)

/-- Embeds `scene_id in existing_data` / `existing_data[scene_id]`. -/
def dbLookup : DB → String → Option (List RawLottery)
  | [], _ => none
  | (k, v) :: rest, s => if k == s then some v else dbLookup rest s

/-- Embeds `existing_data[scene_id] = recs` followed by rewriting the file:
update the key if present, otherwise add it. -/
def dbSet : DB → String → List RawLottery → DB
  | [], s, recs => [(s, recs)]
  | (k, v) :: rest, s, recs =>
      if k == s then (s, recs) :: rest else (k, v) :: dbSet rest s recs

/-- Does `needle` occur at the head of `hay`? -/
def headMatch : List Char → List Char → Bool
  | [], _ => true
  | _ :: _, [] => false
  | a :: as, b :: bs => a == b && headMatch as bs

/-- Substring occurrence on character lists. -/
def pyInList (needle : List Char) : List Char → Bool
  | [] => headMatch needle []
  | b :: bs => headMatch needle (b :: bs) || pyInList needle bs

/-- Python's `needle in hay` on strings: substring containment. -/
def pyIn (needle hay : String) : Bool :=
  pyInList needle.data hay.data

/-- Embeds `secrets.choice(xs)`: uniform choice embedded as indexing by an
arbitrary randomness oracle `r` modulo the list length. -/
def secretsChoice (r : Nat) (xs : List String) : String :=
  (xs.get? (r % xs.length)).getD ""

/-- Outcomes of `handle_new` past the superuser/keyword gates and time
parsing (lottery.py lines 183-241).  Each constructor is one terminal
reply. -/
inductive NewResult where
  | startPast      -- "Start time must be in the future"
  | startAfterEnd  -- "End time must be after start time"
  | dupKeyword     -- "A lottery with the keyword '…' already exists in this scene."
  | created        -- "Lottery: … created with start time …"
deriving Repr, DecidableEq

/-- Embeds `handle_new` (lottery.py lines 183-241), embedded from the point
where both times parsed successfully; the earlier superuser gate,
missing-keyword gate and the `ValueError` branch each terminate with a
different reply and never touch storage.  `start_t`, `end_t` are the
parsed datetimes, `now` is `datetime.now(...)` at the comparison;
`start_s`, `end_s` are their `strftime` renderings stored in the record;
`new_id` is the fresh `uuid4`. -/
def handle_new (db : DB) (scene user kw : String) (number : Int)
    (start_t end_t now : Int) (start_s end_s : String)
    (new_id bot_id adapter : String) : DB × NewResult :=
  if start_t < now then (db, NewResult.startPast)
  else if start_t ≥ end_t then (db, NewResult.startAfterEnd)
  else
    let sceneRecs := (dbLookup db scene).getD []
    if sceneRecs.any (fun rec => rec.keyword == kw) then (db, NewResult.dupKeyword)
    else
      let lot : Lottery :=
        { id := new_id
          creator := user
          scene := scene
          keyword := kw
          participants_limits := number
          participants := []
          start_time := start_s
          end_time := end_s
          bot_id := bot_id
          adapter := adapter }
      (dbSet db scene (sceneRecs ++ [Lottery.model_dump lot]), NewResult.created)

/-- Outcomes of `handle_join` (lottery.py lines 244-288). -/
inductive JoinResult where
  | noScene        -- "No lottery found in this scene"
  | alreadyJoined  -- "You have already joined the lottery '…'."
  | joined         -- "Joined lottery … successfully"
  | noMatch        -- "No lotteries found matching the keyword '…'"
deriving Repr, DecidableEq

/-- The in-place `lottery.participants.append(session.user.id)` of the
join loop, applied to a lottery exactly when `_keyword in lottery.keyword`
selected it into `matching_lotteries` (the comprehension holds references
into `lottery_data`, so the mutation is visible in the list written
back). -/
def joinUpdate (user kw : String) (l : Lottery) : Lottery :=
  if pyIn kw l.keyword then { l with participants := l.participants ++ [user] } else l

/-- Embeds the `matching_lotteries` comprehension of `handle_join`: the
lotteries whose keyword contains `kw` as a substring. -/
def matchingLotteries (kw : String) (lottery_data : List Lottery) : List Lottery :=
  lottery_data.filter (fun l => pyIn kw l.keyword)

/-- Embeds `handle_join` (lottery.py lines 244-288).  Every record of the scene
is `model_validate`d; `matching_lotteries` keeps those whose keyword
contains `kw` as a substring.  The loop `finish`es (aborting before any
file write) at the first matching lottery already containing the user,
which happens iff some matching lottery contains the user; otherwise the
user is appended to every matching lottery and the whole scene list is
dumped and written back. -/
def handle_join (db : DB) (scene user kw : String) :
    Except PyError (DB × JoinResult) :=
  match dbLookup db scene with
  | none => Except.ok (db, JoinResult.noScene)
  | some recs =>
      match recs.mapM Lottery.model_validate with
      | Except.error e => Except.error e
      | Except.ok lottery_data =>
          if (matchingLotteries kw lottery_data).isEmpty then
            Except.ok (db, JoinResult.noMatch)
          else if (matchingLotteries kw lottery_data).any
              (fun l => l.participants.contains user) then
            Except.ok (db, JoinResult.alreadyJoined)
          else
            Except.ok
              (dbSet db scene
                ((lottery_data.map (joinUpdate user kw)).map Lottery.model_dump),
               JoinResult.joined)

/-- Embeds `handle_delete` (lottery.py lines 325-379).  Line 341 binds
`lottery_data` to `existing_data[scene_id]` — a list of JSON dicts, not
`Lottery` instances (no `model_validate` is called, despite the
annotation).  The comprehension for `matching_lotteries` (lines 345-347)
evaluates `lottery.keyword`, an attribute access on a dict, which raises
`AttributeError` at the first element; so whenever the scene has at least
one stored record the handler dies before any authorization check, reply
or write.  An empty or absent scene list `finish`es first with
"No lottery found in this scene". -/
def handle_delete (db : DB) (scene _user _kw : String)
    (_superusers : List String) : Except PyError (DB × String) :=
  match dbLookup db scene with
  | none => Except.ok (db, "No lottery found in this scene")
  | some recs =>
      if recs.isEmpty then Except.ok (db, "No lottery found in this scene")
      else Except.error PyError.attributeError

/-- Outcomes of the scheduled draw callback. -/
inductive DrawResult where
  | noScene         -- warning logged, nothing else
  | noLottery       -- warning logged, nothing else
  | noParticipants  -- info logged, early return: record kept
  | drawn (winner : String)
deriving Repr, DecidableEq

/-- Embeds `execute_lottery_and_delete` (lottery.py lines 61-127): validate all
records of the scene, find the lottery by id, return early if absent or
without participants, otherwise draw a winner with `secrets.choice`,
rewrite the scene list without any record of that id, and announce. -/
def execute_lottery_and_delete (db : DB) (lottery_id scene_id : String)
    (r : Nat) : Except PyError (DB × DrawResult) :=
  match dbLookup db scene_id with
  | none => Except.ok (db, DrawResult.noScene)
  | some recs =>
      match recs.mapM Lottery.model_validate with
      | Except.error e => Except.error e
      | Except.ok lottery_data =>
          match lottery_data.find? (fun l => l.id == lottery_id) with
          | none => Except.ok (db, DrawResult.noLottery)
          | some lot =>
              if lot.participants.isEmpty then
                Except.ok (db, DrawResult.noParticipants)
              else
                Except.ok
                  (dbSet db scene_id
                    ((lottery_data.filter (fun l => !(l.id == lottery_id))).map
                      Lottery.model_dump),
                   DrawResult.drawn (secretsChoice r lot.participants))

/-! ### Generic lemmas about the embedded store -/

/-- Writing a scene and reading it back yields the written list. -/
theorem dbLookup_dbSet_self (db : DB) (s : String) (recs : List RawLottery) :
    dbLookup (dbSet db s recs) s = some recs := by
  induction db with
  | nil => simp [dbSet, dbLookup]
  | cons kv rest ih =>
      obtain ⟨k, v⟩ := kv
      by_cases h : k == s
      · simp [dbSet, dbLookup, h]
      · simp [dbSet, dbLookup, h, ih]

/-- Writing one scene leaves every other scene's entry unchanged. -/
theorem dbLookup_dbSet_ne (db : DB) (s s' : String) (recs : List RawLottery)
    (h : s' ≠ s) : dbLookup (dbSet db s recs) s' = dbLookup db s' := by
  have hs : (s == s') = false := by
    simp only [beq_eq_false_iff_ne]
    exact fun hh => h hh.symm
  induction db with
  | nil => simp [dbSet, dbLookup, hs]
  | cons kv rest ih =>
      obtain ⟨k, v⟩ := kv
      by_cases hk : k == s
      · have hk' : k = s := by simpa using hk
        subst hk'
        simp [dbSet, dbLookup, hs]
      · simp [dbSet, dbLookup, hk, ih]

/-- A list with a member is not empty. -/
theorem isEmpty_false_of_mem {α : Type} {x : α} {l : List α} (h : x ∈ l) :
    l.isEmpty = false := by
  cases l with
  | nil => cases h
  | cons a t => rfl

/-- The chosen element always comes from the list when it is non-empty. -/
theorem secretsChoice_mem (r : Nat) (xs : List String) (h : xs ≠ []) :
    secretsChoice r xs ∈ xs := by
  have hlen : 0 < xs.length := List.length_pos.mpr h
  have hlt : r % xs.length < xs.length := Nat.mod_lt _ hlen
  unfold secretsChoice
  rw [List.get?_eq_get hlt]
  simp only [Option.getD_some]
  exact List.get_mem xs (r % xs.length) hlt

/-! ### Concrete record builder for witnesses and counterexamples -/

/-- A stored record exactly as `Lottery.model_dump` writes it. -/
def mkRec (lid kw : String) (limits : Int) (parts : List String) : RawLottery :=
  { id := lid
    creator := "creator"
    scene := "s"
    start_time := "2026-01-01 00:00:00"
    end_time := "2026-01-02 00:00:00"
    keyword := kw
    participants_limits := some limits
    participants := some parts
    bot_id := "bot"
    adapter := "qq" }

/-! ### Claims -/

/-- C1: the claim says an unauthorized delete is refused with
"You are not authorized to delete this lottery" and an authorized delete
removes every matching record.  The code never reaches either branch:
`handle_delete` binds the scene's raw JSON dicts without `model_validate`
and immediately evaluates `lottery.keyword` — attribute access on a dict —
so any delete in a scene holding at least one record raises
`AttributeError`; no reply is sent and nothing is removed.  This theorem
evaluates the embedded handler at such an input. -/
theorem delete_raises_attributeError :
    handle_delete [("s", [mkRec "L1" "k" 1 []])] "s" "u" "k" ["su"] =
      Except.error PyError.attributeError := rfl

/-- C3: the claim says a join on a lottery whose participant count has
reached `participants_limits` is rejected and the user is not appended.
`handle_join` never reads `participants_limits`: here a lottery with cap 1
already holding participant "A" accepts user "B", the reply is the success
reply, and the stored record ends with 2 participants, above its cap. -/
theorem join_ignores_participant_cap :
    handle_join [("s", [mkRec "L1" "k" 1 ["A"]])] "s" "B" "k" =
      Except.ok ([("s", [mkRec "L1" "k" 1 ["A", "B"]])], JoinResult.joined)
    ∧ ((dbLookup [("s", [mkRec "L1" "k" 1 ["A", "B"]])] "s").getD []).any
        (fun rec =>
          decide (rec.participants_limits.getD 1 <
            Int.ofNat (rec.participants.getD []).length)) = true := by
  exact ⟨rfl, rfl⟩

/-- C2 counterexample: the claim says every stored lottery record is
removed from its scene's list after the scheduled draw callback runs for
its id.  A lottery with an empty participant list refutes it: the
callback returns early at the `participants` check, writes nothing, and
the record is still stored afterwards. -/
theorem draw_keeps_lottery_without_participants :
    execute_lottery_and_delete [("s", [mkRec "L2" "k" 1 []])] "L2" "s" 0 =
      Except.ok ([("s", [mkRec "L2" "k" 1 []])], DrawResult.noParticipants)
    ∧ ((dbLookup [("s", [mkRec "L2" "k" 1 []])] "s").getD []).any
        (fun rec => rec.id == "L2") = true := by
  exact ⟨rfl, rfl⟩

/-- C2 (amended): after the scheduled draw callback runs for a lottery id
stored in its scene, the record is removed from the scene's stored list
provided the lottery's participant list is non-empty (when it is empty
the callback returns before the removal, see the counterexample). -/
theorem draw_removes_lottery_with_participants
    (db : DB) (scene lid : String) (r : Nat) (recs : List RawLottery)
    (ld : List Lottery) (lot : Lottery)
    (h1 : dbLookup db scene = some recs)
    (h2 : recs.mapM Lottery.model_validate = Except.ok ld)
    (h3 : ld.find? (fun l => l.id == lid) = some lot)
    (h4 : lot.participants ≠ []) :
    ∃ db', execute_lottery_and_delete db lid scene r =
        Except.ok (db', DrawResult.drawn (secretsChoice r lot.participants))
      ∧ ∀ rec ∈ (dbLookup db' scene).getD [], rec.id ≠ lid := by
  refine ⟨dbSet db scene
      ((ld.filter (fun l => !(l.id == lid))).map Lottery.model_dump), ?_, ?_⟩
  · have hempty : lot.participants.isEmpty = false := by
      cases hp : lot.participants with
      | nil => exact absurd hp h4
      | cons a t => rfl
    simp only [execute_lottery_and_delete, h1, h2, h3, hempty]
    simp
  · intro rec hrec
    rw [dbLookup_dbSet_self] at hrec
    simp only [Option.getD_some] at hrec
    obtain ⟨l, hl, hdump⟩ := List.mem_map.mp hrec
    obtain ⟨-, hfil⟩ := List.mem_filter.mp hl
    have hid : rec.id = l.id := by rw [← hdump]; rfl
    rw [hid]
    simpa using hfil

/-- Witness for C2's amended theorem at a concrete store. -/
theorem draw_removes_lottery_witness :
    ∃ db', execute_lottery_and_delete [("s", [mkRec "L3" "k" 1 ["A"]])] "L3" "s" 5 =
        Except.ok (db', DrawResult.drawn (secretsChoice 5 ["A"]))
      ∧ ∀ rec ∈ (dbLookup db' "s").getD [], rec.id ≠ "L3" := by
  exact draw_removes_lottery_with_participants
    [("s", [mkRec "L3" "k" 1 ["A"]])] "s" "L3" 5 [mkRec "L3" "k" 1 ["A"]]
    [{ id := "L3", creator := "creator", scene := "s",
       start_time := "2026-01-01 00:00:00", end_time := "2026-01-02 00:00:00",
       keyword := "k", participants_limits := 1, participants := ["A"],
       bot_id := "bot", adapter := "qq" }]
    { id := "L3", creator := "creator", scene := "s",
      start_time := "2026-01-01 00:00:00", end_time := "2026-01-02 00:00:00",
      keyword := "k", participants_limits := 1, participants := ["A"],
      bot_id := "bot", adapter := "qq" }
    rfl rfl rfl (by decide)

/-- C7: for every lottery with a non-empty participant list, the winner
chosen by the scheduled draw (`secrets.choice` over the participant list)
is an element of that list, whatever the randomness oracle produced. -/
theorem draw_winner_in_participants
    (db : DB) (scene lid : String) (r : Nat) (recs : List RawLottery)
    (ld : List Lottery) (lot : Lottery)
    (h1 : dbLookup db scene = some recs)
    (h2 : recs.mapM Lottery.model_validate = Except.ok ld)
    (h3 : ld.find? (fun l => l.id == lid) = some lot)
    (h4 : lot.participants ≠ []) :
    ∃ db', execute_lottery_and_delete db lid scene r =
        Except.ok (db', DrawResult.drawn (secretsChoice r lot.participants))
      ∧ secretsChoice r lot.participants ∈ lot.participants := by
  refine ⟨dbSet db scene
      ((ld.filter (fun l => !(l.id == lid))).map Lottery.model_dump), ?_,
      secretsChoice_mem r lot.participants h4⟩
  have hempty : lot.participants.isEmpty = false := by
    cases hp : lot.participants with
    | nil => exact absurd hp h4
    | cons a t => rfl
  simp only [execute_lottery_and_delete, h1, h2, h3, hempty]
  simp

/-- Witness for C7 at a concrete store with two participants. -/
theorem draw_winner_witness :
    ∃ db', execute_lottery_and_delete [("g", [mkRec "L4" "w" 2 ["A", "B"]])] "L4" "g" 7 =
        Except.ok (db', DrawResult.drawn (secretsChoice 7 ["A", "B"]))
      ∧ secretsChoice 7 ["A", "B"] ∈ ["A", "B"] := by
  exact draw_winner_in_participants
    [("g", [mkRec "L4" "w" 2 ["A", "B"]])] "g" "L4" 7 [mkRec "L4" "w" 2 ["A", "B"]]
    [{ id := "L4", creator := "creator", scene := "s",
       start_time := "2026-01-01 00:00:00", end_time := "2026-01-02 00:00:00",
       keyword := "w", participants_limits := 2, participants := ["A", "B"],
       bot_id := "bot", adapter := "qq" }]
    { id := "L4", creator := "creator", scene := "s",
      start_time := "2026-01-01 00:00:00", end_time := "2026-01-02 00:00:00",
      keyword := "w", participants_limits := 2, participants := ["A", "B"],
      bot_id := "bot", adapter := "qq" }
    rfl rfl rfl (by decide)

/-- C4: a create command whose times pass validation is rejected with the
duplicate-keyword reply, and the store is left unchanged, whenever the
scene's stored list already holds a record with the requested keyword. -/
theorem new_rejects_duplicate_keyword
    (db : DB) (scene user kw : String) (number : Int)
    (start_t end_t now : Int) (start_s end_s new_id bot_id adapter : String)
    (rec : RawLottery)
    (h1 : ¬ start_t < now) (h2 : start_t < end_t)
    (h3 : rec ∈ (dbLookup db scene).getD []) (h4 : rec.keyword = kw) :
    handle_new db scene user kw number start_t end_t now start_s end_s
      new_id bot_id adapter = (db, NewResult.dupKeyword) := by
  have hany : ((dbLookup db scene).getD []).any (fun r => r.keyword == kw) = true :=
    List.any_eq_true.mpr ⟨rec, h3, by simp [h4]⟩
  have h2' : ¬ start_t ≥ end_t := by omega
  simp [handle_new, h1, h2', hany]

/-- Witness for C4 at a concrete store. -/
theorem new_rejects_duplicate_witness :
    handle_new [("s", [mkRec "L5" "dup" 1 []])] "s" "u" "dup" 1 10 20 5 "ss" "es"
      "id9" "bot" "qq" = ([("s", [mkRec "L5" "dup" 1 []])], NewResult.dupKeyword) := by
  exact new_rejects_duplicate_keyword
    [("s", [mkRec "L5" "dup" 1 []])] "s" "u" "dup" 1 10 20 5 "ss" "es"
    "id9" "bot" "qq" (mkRec "L5" "dup" 1 []) (by decide) (by decide)
    (by simp [dbLookup]) rfl

/-- C5: with parseable times, creation is rejected when the start time is
earlier than the current time, rejected when the start time is at or
after the end time, and a record is only created when the start time is
not in the past and strictly precedes the end time. -/
theorem new_validates_times
    (db : DB) (scene user kw : String) (number : Int)
    (start_t end_t now : Int) (start_s end_s new_id bot_id adapter : String) :
    (start_t < now →
      handle_new db scene user kw number start_t end_t now start_s end_s
        new_id bot_id adapter = (db, NewResult.startPast))
    ∧ (¬ start_t < now → start_t ≥ end_t →
      handle_new db scene user kw number start_t end_t now start_s end_s
        new_id bot_id adapter = (db, NewResult.startAfterEnd))
    ∧ ((handle_new db scene user kw number start_t end_t now start_s end_s
        new_id bot_id adapter).2 = NewResult.created →
      now ≤ start_t ∧ start_t < end_t) := by
  refine ⟨?_, ?_, ?_⟩
  · intro h
    simp [handle_new, h]
  · intro h1 h2
    simp [handle_new, h1, h2]
  · intro h
    by_cases ha : start_t < now
    · simp [handle_new, ha] at h
    · by_cases hb : start_t ≥ end_t
      · simp [handle_new, ha, hb] at h
      · exact ⟨by omega, by omega⟩

/-- Witness for C5: a start time in the past is rejected. -/
theorem new_validates_times_witness :
    handle_new [] "s" "u" "k" 1 3 20 5 "ss" "es" "id8" "bot" "qq" =
      ([], NewResult.startPast) := by
  exact (new_validates_times [] "s" "u" "k" 1 3 20 5 "ss" "es" "id8" "bot" "qq").1
    (by decide)

/-- C6: when the requesting user already appears in the participant list
of a lottery matched by the keyword, the join finishes with the
already-joined reply and the store is returned unchanged — the `finish`
inside the loop aborts the handler before the file is rewritten. -/
theorem join_already_joined_leaves_store
    (db : DB) (scene user kw : String) (recs : List RawLottery)
    (ld : List Lottery) (l : Lottery)
    (h1 : dbLookup db scene = some recs)
    (h2 : recs.mapM Lottery.model_validate = Except.ok ld)
    (h3 : l ∈ ld) (h4 : pyIn kw l.keyword = true)
    (h5 : l.participants.contains user = true) :
    handle_join db scene user kw = Except.ok (db, JoinResult.alreadyJoined) := by
  have hmem : l ∈ matchingLotteries kw ld :=
    List.mem_filter.mpr ⟨h3, h4⟩
  have hne : (matchingLotteries kw ld).isEmpty = false :=
    isEmpty_false_of_mem hmem
  have hany : (matchingLotteries kw ld).any
      (fun x => x.participants.contains user) = true :=
    List.any_eq_true.mpr ⟨l, hmem, h5⟩
  simp only [handle_join, h1, h2, hne, hany]
  simp

/-- Witness for C6 at a concrete store. -/
theorem join_already_joined_witness :
    handle_join [("s", [mkRec "L6" "kk" 3 ["U"]])] "s" "U" "kk" =
      Except.ok ([("s", [mkRec "L6" "kk" 3 ["U"]])], JoinResult.alreadyJoined) := by
  exact join_already_joined_leaves_store
    [("s", [mkRec "L6" "kk" 3 ["U"]])] "s" "U" "kk" [mkRec "L6" "kk" 3 ["U"]]
    [{ id := "L6", creator := "creator", scene := "s",
       start_time := "2026-01-01 00:00:00", end_time := "2026-01-02 00:00:00",
       keyword := "kk", participants_limits := 3, participants := ["U"],
       bot_id := "bot", adapter := "qq" }]
    { id := "L6", creator := "creator", scene := "s",
      start_time := "2026-01-01 00:00:00", end_time := "2026-01-02 00:00:00",
      keyword := "kk", participants_limits := 3, participants := ["U"],
      bot_id := "bot", adapter := "qq" }
    rfl rfl (by simp) (by decide) (by decide)

/-- C8: a successful join with keyword `kw` appends the user to every
lottery of the scene whose keyword contains `kw` as a substring — the
match is `_keyword in lottery.keyword`, not equality — so one join can
modify several lotteries at once (see the witness, where keywords "abc"
and "zabcz" are both updated by joining "abc"). -/
theorem join_appends_to_all_substring_matches
    (db : DB) (scene user kw : String) (recs : List RawLottery)
    (ld : List Lottery)
    (h3 : ∃ l ∈ ld, pyIn kw l.keyword = true)
    (h4 : ∀ l ∈ ld, pyIn kw l.keyword = true → l.participants.contains user = false)
    (h1 : dbLookup db scene = some recs)
    (h2 : recs.mapM Lottery.model_validate = Except.ok ld) :
    handle_join db scene user kw =
      Except.ok (dbSet db scene
        ((ld.map (joinUpdate user kw)).map Lottery.model_dump), JoinResult.joined)
    ∧ ∀ l ∈ ld, pyIn kw l.keyword = true →
        (joinUpdate user kw l).participants = l.participants ++ [user] := by
  constructor
  · obtain ⟨l0, hl0, hkw0⟩ := h3
    have hne : (matchingLotteries kw ld).isEmpty = false :=
      isEmpty_false_of_mem (List.mem_filter.mpr ⟨hl0, hkw0⟩ :
        l0 ∈ matchingLotteries kw ld)
    have hany : (matchingLotteries kw ld).any
        (fun x => x.participants.contains user) = false := by
      rw [List.any_eq_false]
      intro x hx
      obtain ⟨hx1, hx2⟩ := List.mem_filter.mp hx
      simpa using h4 x hx1 hx2
    simp only [handle_join, h1, h2, hne, hany]
    simp
  · intro l _ hkw
    simp [joinUpdate, hkw]

/-- Validated form of `mkRec "A1" "abc" 2 []`. -/
def lotA1 : Lottery :=
  { id := "A1", creator := "creator", scene := "s",
    start_time := "2026-01-01 00:00:00", end_time := "2026-01-02 00:00:00",
    keyword := "abc", participants_limits := 2, participants := [],
    bot_id := "bot", adapter := "qq" }

/-- Validated form of `mkRec "A2" "zabcz" 2 []`. -/
def lotA2 : Lottery :=
  { id := "A2", creator := "creator", scene := "s",
    start_time := "2026-01-01 00:00:00", end_time := "2026-01-02 00:00:00",
    keyword := "zabcz", participants_limits := 2, participants := [],
    bot_id := "bot", adapter := "qq" }

/-- Witness for C8: joining "abc" updates both the lottery with keyword
"abc" and the one with keyword "zabcz". -/
theorem join_substring_witness :
    handle_join [("s", [mkRec "A1" "abc" 2 [], mkRec "A2" "zabcz" 2 []])] "s" "U" "abc" =
      Except.ok (dbSet [("s", [mkRec "A1" "abc" 2 [], mkRec "A2" "zabcz" 2 []])] "s"
        (([lotA1, lotA2].map (joinUpdate "U" "abc")).map Lottery.model_dump),
       JoinResult.joined)
    ∧ (joinUpdate "U" "abc" lotA2).participants = lotA2.participants ++ ["U"] := by
  refine ⟨(join_appends_to_all_substring_matches
      [("s", [mkRec "A1" "abc" 2 [], mkRec "A2" "zabcz" 2 []])] "s" "U" "abc"
      [mkRec "A1" "abc" 2 [], mkRec "A2" "zabcz" 2 []] [lotA1, lotA2]
      ⟨lotA1, by simp, by decide⟩ (by decide) rfl rfl).1,
    (join_appends_to_all_substring_matches
      [("s", [mkRec "A1" "abc" 2 [], mkRec "A2" "zabcz" 2 []])] "s" "U" "abc"
      [mkRec "A1" "abc" 2 [], mkRec "A2" "zabcz" 2 []] [lotA1, lotA2]
      ⟨lotA1, by simp, by decide⟩ (by decide) rfl rfl).2 lotA2 (by simp) (by decide)⟩

/-- Any store a successful join returns is either the input store or a
rewrite of the joined scene's key only. -/
theorem handle_join_db_shape (db : DB) (scene user kw : String)
    (db' : DB) (res : JoinResult)
    (h : handle_join db scene user kw = Except.ok (db', res)) :
    db' = db ∨ ∃ recs, db' = dbSet db scene recs := by
  unfold handle_join at h
  split at h
  · simp only [Except.ok.injEq, Prod.mk.injEq] at h
    exact Or.inl h.1.symm
  · split at h
    · cases h
    · split at h
      · simp only [Except.ok.injEq, Prod.mk.injEq] at h
        exact Or.inl h.1.symm
      · split at h
        · simp only [Except.ok.injEq, Prod.mk.injEq] at h
          exact Or.inl h.1.symm
        · simp only [Except.ok.injEq, Prod.mk.injEq] at h
          exact Or.inr ⟨_, h.1.symm⟩

/-- Any store the draw callback returns is either the input store or a
rewrite of the drawn scene's key only. -/
theorem execute_db_shape (db : DB) (lid scene : String) (r : Nat)
    (db' : DB) (res : DrawResult)
    (h : execute_lottery_and_delete db lid scene r = Except.ok (db', res)) :
    db' = db ∨ ∃ recs, db' = dbSet db scene recs := by
  unfold execute_lottery_and_delete at h
  split at h
  · simp only [Except.ok.injEq, Prod.mk.injEq] at h
    exact Or.inl h.1.symm
  · split at h
    · cases h
    · split at h
      · simp only [Except.ok.injEq, Prod.mk.injEq] at h
        exact Or.inl h.1.symm
      · split at h
        · simp only [Except.ok.injEq, Prod.mk.injEq] at h
          exact Or.inl h.1.symm
        · simp only [Except.ok.injEq, Prod.mk.injEq] at h
          exact Or.inr ⟨_, h.1.symm⟩

/-- C9: create, join and the scheduled draw each read and rewrite only
their own scene's key of the JSON document; every other scene's stored
entries are unchanged by the operation. -/
theorem ops_preserve_other_scenes
    (db : DB) (scene s' user kw lid : String) (number : Int)
    (start_t end_t now : Int) (start_s end_s new_id bot_id adapter : String)
    (r : Nat) (hne : s' ≠ scene) :
    dbLookup (handle_new db scene user kw number start_t end_t now start_s end_s
        new_id bot_id adapter).1 s' = dbLookup db s'
    ∧ (∀ db' res, handle_join db scene user kw = Except.ok (db', res) →
        dbLookup db' s' = dbLookup db s')
    ∧ (∀ db' res, execute_lottery_and_delete db lid scene r = Except.ok (db', res) →
        dbLookup db' s' = dbLookup db s') := by
  refine ⟨?_, ?_, ?_⟩
  · unfold handle_new
    by_cases h1 : start_t < now
    · simp [h1]
    · by_cases h2 : start_t ≥ end_t
      · simp [h1, h2]
      · by_cases h3 : ((dbLookup db scene).getD []).any (fun rec => rec.keyword == kw)
        · simp [h1, h2, h3]
        · simp [h1, h2, h3, dbLookup_dbSet_ne db scene s' _ hne]
  · intro db' res h
    rcases handle_join_db_shape db scene user kw db' res h with rfl | ⟨recs, rfl⟩
    · rfl
    · exact dbLookup_dbSet_ne db scene s' recs hne
  · intro db' res h
    rcases execute_db_shape db lid scene r db' res h with rfl | ⟨recs, rfl⟩
    · rfl
    · exact dbLookup_dbSet_ne db scene s' recs hne

/-- Witness for C9: a store holding scenes "t" and "s"; operations on
scene "s" leave scene "t" unchanged. -/
theorem ops_preserve_other_scenes_witness :
    dbLookup (handle_new [("t", []), ("s", [])] "s" "u" "k" 1 10 20 5 "ss" "es"
        "id7" "bot" "qq").1 "t" = dbLookup [("t", []), ("s", [])] "t"
    ∧ (∀ db' res, handle_join [("t", []), ("s", [])] "s" "u" "k" = Except.ok (db', res) →
        dbLookup db' "t" = dbLookup [("t", []), ("s", [])] "t")
    ∧ (∀ db' res, execute_lottery_and_delete [("t", []), ("s", [])] "L1" "s" 0 =
          Except.ok (db', res) →
        dbLookup db' "t" = dbLookup [("t", []), ("s", [])] "t") := by
  exact ops_preserve_other_scenes [("t", []), ("s", [])] "s" "t" "u" "k" "L1" 1
    10 20 5 "ss" "es" "id7" "bot" "qq" 0 (by decide)

/-- Validated form of `mkRec "L9" "k" 1 ["A", "B", "C"]`: three
participants against a cap of 1. -/
def lotOverCap : Lottery :=
  { id := "L9", creator := "creator", scene := "s",
    start_time := "2026-01-01 00:00:00", end_time := "2026-01-02 00:00:00",
    keyword := "k", participants_limits := 1, participants := ["A", "B", "C"],
    bot_id := "bot", adapter := "qq" }

/-- C10: the `check_model` validator compares `len(numbers)` — always 0,
no record has a `numbers` key — against `participants_limits`.  When the
field is omitted the comparison is `0 > None`, which raises `TypeError`
instead of letting the declared default of 1 apply; and since the
`participants` list is never compared against the cap, a record with
three participants and a cap of 1 validates successfully. -/
theorem check_model_mishandles_cap :
    (∀ v : RawLottery, v.participants_limits = none →
      Lottery.model_validate v = Except.error PyError.typeError)
    ∧ Lottery.model_validate (mkRec "L9" "k" 1 ["A", "B", "C"]) = Except.ok lotOverCap
    ∧ lotOverCap.participants_limits < Int.ofNat lotOverCap.participants.length := by
  refine ⟨?_, rfl, by decide⟩
  intro v hv
  simp [Lottery.model_validate, Lottery.check_model, hv]

/-- Witness for C10: a record without `participants_limits` fails
validation with `TypeError`. -/
theorem check_model_mishandles_cap_witness :
    Lottery.model_validate
      { id := "X", creator := "c", scene := "s", start_time := "t1",
        end_time := "t2", keyword := "k", participants_limits := none,
        participants := some [], bot_id := "b", adapter := "a" } =
      Except.error PyError.typeError := by
  exact check_model_mishandles_cap.1
    { id := "X", creator := "c", scene := "s", start_time := "t1",
      end_time := "t2", keyword := "k", participants_limits := none,
      participants := some [], bot_id := "b", adapter := "a" } rfl
